import Mathlib

/-!
Verification of the chapter-API backend: a shallow embedding of the
cache-aside read path, the upload handler with cache invalidation, the
admin-token gate, and the rate limiter with its in-memory fallback,
together with theorems settling the specified behaviors.

Sources embedded:
  - `src/middlewares/cache.js` (cache-aside middleware, both iterations)
  - `src/controllers/chapterController.js` (`getAllChapters`, `uploadChapters`)
  - `src/utils/redisClient.js` (client availability states, `adminAuth`)
  - `src/routes/chapterRoutes.js` (route wiring for POST)
  - `src/server.js` (rate limiter setup with Upstash `sendCommand` adapter)
-/

/-- JSON values, as produced by `JSON.parse` on the JavaScript side. -/
inductive Json where
  | null
  | bool (b : Bool)
  | num (n : Int)
  | str (s : String)
  | arr (xs : List Json)
  | obj (fields : List (String × Json))
deriving Repr

/-- Outcome of an Express middleware: either it sends a response itself
(`res.json` defaults to status 200), or it calls `next()` and the request
falls through to the downstream handler. -/
inductive MwOutcome where
  | respond (status : Nat) (body : Json)
  | next
deriving Repr

/-- The observable state of one cache lookup, from the middleware's point of
view: `none` models `redisClient` being `null` (initialization failed or not
yet completed); `some (.error ())` models the awaited `get` call throwing;
`some (.ok v)` models the `get` call resolving with `v` (`none` = Redis null,
a miss; `some s` = the stored string). -/
abbrev CacheLookup := Option (Except Unit (Option String))

/-- Embedding of the cache middleware of `src/middlewares/cache.js` (with the
`!redisClient` availability check of the later iteration in
`src/utils/redisClient.js`). `parse` stands for `JSON.parse`, returning `none`
when it would throw. Note the JavaScript truthiness test `if (cached)`: an
empty cached string is falsy and is treated as a miss, and a `JSON.parse`
throw lands in the `catch` block, which calls `next()`. -/
def cacheMiddleware (parse : String → Option Json) (client : CacheLookup) : MwOutcome :=
  match client with
  | none => .next
  | some (.error _) => .next
  | some (.ok none) => .next
  | some (.ok (some cached)) =>
    if cached = "" then .next
    else
      match parse cached with
      | some j => .respond 200 j
      | none => .next

/-- The persisted chapter record, from the mongoose schema
(`models/Chapter.js` as shown in the routes source). The `class` field is
named `cls` here (Lean keyword), matching the destructuring alias used in the
controller. -/
structure Chapter where
  subject : String
  chapter : String
  cls : String
  unit : String
  status : String
  isWeakChapter : Bool
  questionSolved : Nat
  yearWiseQuestionCount : List (String × Nat)
deriving Repr, DecidableEq

/-- Query parameters of the list endpoint. All arrive as strings; `page` and
`limit` are modeled after numeric coercion, `none` meaning the parameter was
absent (destructuring defaults 1 and 10 then apply). -/
structure Query where
  cls : Option String
  unit : Option String
  status : Option String
  isWeakChapter : Option String
  subject : Option String
  page : Option Nat
  limit : Option Nat
deriving Repr, DecidableEq

/-- The default query: no filters, default pagination. -/
def defaultQuery : Query := ⟨none, none, none, none, none, none, none⟩

/-- One exact-match filter of `getAllChapters`: `if (cls) filters.class = cls`
adds the filter only when the parameter is present and truthy (the empty
string is falsy in JavaScript). -/
def filterMatch (param : Option String) (fieldVal : String) : Bool :=
  match param with
  | none => true
  | some s => if s = "" then true else fieldVal == s

/-- The mongoose filter object built by `getAllChapters`, as a predicate on
records. `isWeakChapter` filters on boolean equality with `s === 'true'`. -/
def matchesFilters (q : Query) (c : Chapter) : Bool :=
  filterMatch q.cls c.cls &&
  filterMatch q.unit c.unit &&
  filterMatch q.status c.status &&
  filterMatch q.subject c.subject &&
  (match q.isWeakChapter with
   | none => true
   | some s => if s = "" then true else c.isWeakChapter == (s == "true"))

/-- The list response body `{ total, chapters }`. -/
structure ListResponse where
  total : Nat
  chapters : List Chapter
deriving Repr, DecidableEq

/-- The store queries of `getAllChapters`: `countDocuments(filters)` and
`find(filters).skip((page-1)*limit).limit(limit)` over the document store,
with defaults `page = 1`, `limit = 10`. -/
def listQuery (q : Query) (db : List Chapter) : ListResponse :=
  { total := (db.filter (matchesFilters q)).length,
    chapters :=
      (((db.filter (matchesFilters q)).drop ((q.page.getD 1 - 1) * q.limit.getD 10)).take
        (q.limit.getD 10)) }

/-- A `setEx` cache-write attempt: key, expiry in seconds, serialized value. -/
structure CacheWrite where
  key : String
  ttl : Nat
  value : String
deriving Repr, DecidableEq

/-- What one run of the list handler produces: the cache write it issues, and
its HTTP response — `Except.error` meaning the handler threw before sending
any response (the awaited call rejected and there is no try/catch). -/
structure ListHandlerResult where
  cacheWrite : CacheWrite
  response : Except Unit (Nat × ListResponse)
deriving Repr

/-- Embedding of `getAllChapters` of `src/controllers/chapterController.js`:
compute `{ total, chapters }`, then `await redis.setEx('chapters', 3600,
JSON.stringify({ total, chapters }))`, then `res.json({ total, chapters })`.
`stringify` stands for `JSON.stringify`; `setExOutcome` is the outcome of the
awaited cache write. The `setEx` call is not wrapped in try/catch, so a
rejection propagates and `res.json` is never reached. -/
def getAllChapters (stringify : ListResponse → String) (q : Query) (db : List Chapter)
    (setExOutcome : Except Unit Unit) : ListHandlerResult :=
  { cacheWrite := ⟨"chapters", 3600, stringify (listQuery q db)⟩,
    response :=
      match setExOutcome with
      | .error e => .error e
      | .ok _ => .ok (200, listQuery q db) }

/-- Outcome of the upload handler: the 400 branch for `JSON.parse` failure,
a normal `res.json` response, or an uncaught throw (no response sent). -/
inductive UploadOutcome where
  | badRequest (status : Nat) (error : String)
  | okResp (status : Nat) (message : String) (inserted : Nat) (failedCount : Nat)
      (failed : List Json)
  | thrown
deriving Repr

/-- JavaScript `for...of` iterability of a JSON value: arrays iterate their
elements, strings iterate their characters (each a one-character string);
objects, numbers, booleans and null are not iterable and `for...of` throws a
TypeError. -/
def jsIterate : Json → Option (List Json)
  | .arr xs => some xs
  | .str s => some (s.data.map fun c => Json.str (String.singleton c))
  | _ => none

/-- Full observable result of one run of the upload handler: its outcome, the
records actually persisted by `Chapter.create`, and whether the
`redis.del('chapters')` invalidation was reached. -/
structure UploadResult where
  outcome : UploadOutcome
  created : List Json
  cacheDeleteAttempted : Bool
deriving Repr

/-- Embedding of `uploadChapters` of `src/controllers/chapterController.js`:
parse the uploaded file (400 on parse failure), iterate the parsed value with
`for...of` inserting each item — each `Chapter.create` in its own try/catch,
failures pushed onto `failed` — then `await redis.del('chapters')` (no
try/catch: a rejection propagates, `.thrown`), then respond with
`{ message, inserted: data.length - failed.length, failedCount, failed }`.
`insertOk` gives each per-record `Chapter.create` outcome; `delOutcome` the
outcome of the awaited cache deletion. -/
def uploadChapters (parse : String → Option Json) (insertOk : Json → Bool)
    (delOutcome : Except Unit Unit) (fileContent : String) : UploadResult :=
  match parse fileContent with
  | none => ⟨.badRequest 400 "Invalid JSON format", [], false⟩
  | some data =>
    match jsIterate data with
    | none => ⟨.thrown, [], false⟩
    | some items =>
      match delOutcome with
      | .error _ => ⟨.thrown, items.filter insertOk, true⟩
      | .ok _ =>
        ⟨.okResp 200 "Upload complete"
            (items.length - (items.filter (fun i => !insertOk i)).length)
            (items.filter (fun i => !insertOk i)).length
            (items.filter (fun i => !insertOk i)),
          items.filter insertOk, true⟩

/-- Decision of the admin gate: call `next()` or short-circuit with 403. -/
inductive AuthDecision where
  | proceed
  | forbidden (status : Nat) (error : String)
deriving Repr, DecidableEq

/-- Embedding of `adminAuth`: `req.headers.authorization ===
process.env.ADMIN_TOKEN` — raw strict equality on the whole header value, no
Bearer-prefix parsing, no trimming. `none` models an absent header or an
unset environment variable (both `undefined` in JavaScript, and
`undefined === undefined` holds). -/
def adminAuth (adminToken : Option String) (authorization : Option String) : AuthDecision :=
  if authorization = adminToken then .proceed else .forbidden 403 "Unauthorized"

/-- Observable effect of the POST route pipeline
`router.post('/', adminAuth, upload.single('file'), uploadChapters)`:
which stages ran and any short-circuit response. -/
structure PostPipelineResult where
  responseStatus : Option Nat
  responseError : Option String
  fileHandlingRan : Bool
  handlerRan : Bool
deriving Repr, DecidableEq

/-- The POST pipeline of `src/routes/chapterRoutes.js`: `adminAuth` runs
first; only if it calls `next()` do the multer file handling and the upload
handler execute. -/
def postChapters (adminToken : Option String) (authorization : Option String) :
    PostPipelineResult :=
  match adminAuth adminToken authorization with
  | .proceed => ⟨none, none, true, true⟩
  | .forbidden s e => ⟨some s, some e, false, false⟩

/-- Redis commands that `rate-limit-redis` may issue through the
`sendCommand` adapter of `src/server.js`. -/
inductive RedisCommand where
  | incr (key : String)
  | expire (key : String) (ttl : Nat)
  | get (key : String)
  | set (key : String) (v : String)
  | evalsha
  | evalCmd
  | other (name : String)
deriving Repr, DecidableEq

/-- A reply from the Upstash client's direct methods. -/
inductive CmdReply where
  | num (n : Nat)
  | strVal (s : Option String)
  | okReply
deriving Repr, DecidableEq

/-- The direct methods of the Upstash REST client used by the adapter. -/
structure UpstashClient where
  incr : String → Nat
  expire : String → Nat → Nat
  getVal : String → Option String

/-- Embedding of the `sendCommand` adapter of `src/server.js` (lines 91 to
111): `incr`, `expire`, `get`, `set` are mapped to the client's direct
methods; `evalsha` and `eval` throw (Lua scripting is unsupported over the
Upstash REST API); any other command throws as unhandled. -/
def sendCommand (client : UpstashClient) : RedisCommand → Except String CmdReply
  | .incr k => .ok (.num (client.incr k))
  | .expire k t => .ok (.num (client.expire k t))
  | .get k => .ok (.strVal (client.getVal k))
  | .set _ _ => .ok .okReply
  | .evalsha => .error "Lua scripting not supported by Upstash for rate limiting store."
  | .evalCmd => .error "Lua scripting not supported by Upstash for rate limiting store."
  | .other name => .error ("Unhandled Redis command for Upstash RedisStore: " ++ name)

/-- Whether a single command succeeds through the adapter. -/
def cmdOk (client : UpstashClient) (c : RedisCommand) : Bool :=
  match sendCommand client c with
  | .ok _ => true
  | .error _ => false

/-- The rate limiter configuration chosen at startup: both branches of
`src/server.js` use `windowMs: 60 * 1000`, `max: 30`,
`standardHeaders: true`, `legacyHeaders: false`; only the backing store
differs. -/
structure Limiter where
  windowMs : Nat
  maxReq : Nat
  standardHeaders : Bool
  legacyHeaders : Bool
  usesSharedStore : Bool
deriving Repr, DecidableEq

/-- The in-memory fallback limiter (`rateLimit` with the default store). -/
def memLimiter : Limiter := ⟨60000, 30, true, false, false⟩

/-- The Redis-backed limiter (`rateLimit` with the `RedisStore` adapter). -/
def sharedLimiter : Limiter := ⟨60000, 30, true, false, true⟩

/-- Embedding of the rate limiter startup selection of `src/server.js`
(lines 61 to 138): if the Upstash client is unavailable, use the in-memory
limiter; otherwise attempt the shared-store adapter, whose construction
issues `cmds` through `sendCommand` — if any of them throws, the surrounding
try/catch falls back to the in-memory limiter. The function is total: every
path yields a configured limiter, never a crash. -/
def setupRateLimiter (client : Option UpstashClient) (cmds : List RedisCommand) : Limiter :=
  match client with
  | none => memLimiter
  | some c => if cmds.all (cmdOk c) then sharedLimiter else memLimiter

/-- One per-client counter of the in-process rate-limit store. -/
structure CounterEntry where
  count : Nat
  windowStart : Nat
deriving Repr, DecidableEq

/-- Association-list lookup for the counter store. -/
def storeLookup : List (String × CounterEntry) → String → Option CounterEntry
  | [], _ => none
  | (k, e) :: rest, key => if k = key then some e else storeLookup rest key

/-- Association-list update for the counter store. -/
def storeSet (store : List (String × CounterEntry)) (key : String) (e : CounterEntry) :
    List (String × CounterEntry) :=
  (key, e) :: store.filter (fun p => p.1 != key)

/-- Modelled from the spec: the in-process fixed-window counter store of the
rate limiter (the algorithm lives in the express-rate-limit library, not
under src/). A mapping from client identifier to count and window start;
created on the first request of a window, incremented within the window,
reset when the window has elapsed. Returns the count attributed to this
request and the updated store. -/
def limiterHit (lim : Limiter) (now : Nat) (key : String)
    (store : List (String × CounterEntry)) : Nat × List (String × CounterEntry) :=
  match storeLookup store key with
  | some e =>
    if now < e.windowStart + lim.windowMs then
      (e.count + 1, storeSet store key ⟨e.count + 1, e.windowStart⟩)
    else
      (1, storeSet store key ⟨1, now⟩)
  | none => (1, storeSet store key ⟨1, now⟩)

/-- Decision for one request: allowed through, or rejected with a
rate-limit error status and headers. -/
inductive ReqDecision where
  | allowed
  | limited (status : Nat) (headers : List (String × String))
deriving Repr, DecidableEq

/-- Modelled from the spec: the standard rate-limit response headers sent
when `standardHeaders: true` (draft RateLimit header fields). -/
def stdHeaders (lim : Limiter) : List (String × String) :=
  [("RateLimit-Limit", toString lim.maxReq), ("RateLimit-Remaining", "0")]

/-- Modelled from the spec: one request through the rate limiter — count the
hit, allow while the count is within `max`, otherwise respond with status 429
and the standard rate-limit headers. -/
def rateLimitRequest (lim : Limiter) (now : Nat) (key : String)
    (store : List (String × CounterEntry)) :
    ReqDecision × List (String × CounterEntry) :=
  if (limiterHit lim now key store).1 ≤ lim.maxReq then
    (.allowed, (limiterHit lim now key store).2)
  else
    (.limited 429 (stdHeaders lim), (limiterHit lim now key store).2)

/-- Run a sequence of requests (given by their arrival times) from one client
through the rate limiter, collecting the decisions and the final store. -/
def runHits (lim : Limiter) (key : String) :
    List Nat → List (String × CounterEntry) →
    List ReqDecision × List (String × CounterEntry)
  | [], st => ([], st)
  | n :: ns, st =>
    ((rateLimitRequest lim n key st).1 ::
        (runHits lim key ns (rateLimitRequest lim n key st).2).1,
      (runHits lim key ns (rateLimitRequest lim n key st).2).2)

/-- The decision the in-memory limiter takes for the request that brings the
window count to `c`. -/
def hitDecision (c : Nat) : ReqDecision :=
  if c ≤ 30 then .allowed else .limited 429 (stdHeaders memLimiter)

/-- A concrete `JSON.parse` fixture covering the inputs used by witnesses and
counterexamples. -/
def parseFix : String → Option Json
  | "[]" => some (Json.arr [])
  | "[1]" => some (Json.arr [Json.num 1])
  | "[1,2]" => some (Json.arr [Json.num 1, Json.num 2])
  | "\x7b\x7d" => some (Json.obj [])
  | _ => none

/-- A concrete `JSON.stringify` fixture. -/
def stringifyFix : ListResponse → String := fun r => toString r.total

/-- A concrete per-record insert fixture: only the record `1` succeeds. -/
def insertFix : Json → Bool
  | .num 1 => true
  | _ => false

/-- A concrete Upstash client fixture. -/
def clientFix : UpstashClient := ⟨fun _ => 1, fun _ _ => 1, fun _ => none⟩

/-- Claim C1, as frozen, is false: counterexample. With the cached string
being empty (falsy in JavaScript) or not valid JSON (`JSON.parse` throws,
caught, `next()`), the middleware does not respond at all — it passes control
to the downstream handler, so at these concrete inputs the claimed
200-response with no downstream invocation fails. -/
theorem c1_counterexample :
    cacheMiddleware parseFix (some (Except.ok (some ""))) = MwOutcome.next ∧
    cacheMiddleware parseFix (some (Except.ok (some "oops"))) = MwOutcome.next :=
  ⟨rfl, rfl⟩

/-- Claim C1, amended: if the cache holds a nonempty string V on which
`JSON.parse` succeeds with value j, the middleware responds with status 200
and body j, and the downstream handler is not invoked. -/
theorem c1_cache_hit_serves_parsed_value (parse : String → Option Json) (v : String)
    (j : Json) (hne : v ≠ "") (hp : parse v = some j) :
    cacheMiddleware parse (some (Except.ok (some v))) = MwOutcome.respond 200 j := by
  simp [cacheMiddleware, hne, hp]

/-- Witness for the amended claim C1 at the concrete cached string `"[]"`. -/
theorem c1_witness :
    ("[]" ≠ "" ∧ parseFix "[]" = some (Json.arr [])) ∧
    cacheMiddleware parseFix (some (Except.ok (some "[]"))) =
      MwOutcome.respond 200 (Json.arr []) :=
  ⟨⟨by decide, rfl⟩, c1_cache_hit_serves_parsed_value parseFix "[]" (Json.arr []) (by decide) rfl⟩

/-- Claim C2 names a code bug: `getAllChapters` awaits
`redis.setEx('chapters', ...)` with no try/catch, so when the cache write
fails the handler throws before `res.json` and no response is returned —
while with a successful write the same input responds 200 with the computed
body. The spec requires the write to be best-effort. -/
theorem c2_cache_write_failure_aborts_response :
    (getAllChapters stringifyFix defaultQuery [] (Except.error ())).response =
      Except.error () ∧
    (getAllChapters stringifyFix defaultQuery [] (Except.ok ())).response =
      Except.ok (200, ⟨0, []⟩) :=
  ⟨rfl, rfl⟩

/-- Claim C3: if the cache client is unavailable, or the cache lookup throws,
or the cached value fails to deserialize, the middleware passes control to
the live handler (`next()`) and surfaces no error. -/
theorem c3_cache_error_falls_through (parse : String → Option Json)
    (client : CacheLookup)
    (h : client = none ∨ client = some (Except.error ()) ∨
      ∃ s, client = some (Except.ok (some s)) ∧ parse s = none) :
    cacheMiddleware parse client = MwOutcome.next := by
  rcases h with h | h | ⟨s, hc, hp⟩
  · subst h; rfl
  · subst h; rfl
  · subst hc
    by_cases hs : s = ""
    · simp [cacheMiddleware, hs]
    · simp [cacheMiddleware, hs, hp]

/-- Witness for claim C3 with the client unavailable. -/
theorem c3_witness :
    ((none : CacheLookup) = none ∨ (none : CacheLookup) = some (Except.error ()) ∨
      ∃ s, (none : CacheLookup) = some (Except.ok (some s)) ∧ parseFix s = none) ∧
    cacheMiddleware parseFix none = MwOutcome.next :=
  ⟨Or.inl rfl, c3_cache_error_falls_through parseFix none (Or.inl rfl)⟩

/-- Claim C4 names a code bug: the cache deletion is indeed reached
unconditionally (here every record failed insertion, yet
`cacheDeleteAttempted` is true), but its failure is not swallowed —
`uploadChapters` awaits `redis.del('chapters')` with no try/catch, so a
rejected deletion aborts the handler and no `{ message, inserted,
failedCount, failed }` response is sent, where the spec requires the response
regardless of the deletion outcome. -/
theorem c4_delete_failure_aborts_response :
    uploadChapters parseFix (fun _ => false) (Except.error ()) "[1]" =
      ⟨UploadOutcome.thrown, [], true⟩ :=
  rfl

/-- Claim C5: for an uploaded JSON array, each record is inserted
independently — the records accepted by the store are exactly the filter of
the items on the per-record success predicate (a failure never aborts the
batch), and the response reports `inserted = N - M`, `failedCount = M`, and
`failed` holds exactly the M offending input objects. -/
theorem c5_partial_upload_report (parse : String → Option Json) (insertOk : Json → Bool)
    (content : String) (items : List Json) (h : parse content = some (Json.arr items)) :
    uploadChapters parse insertOk (Except.ok ()) content =
      ⟨UploadOutcome.okResp 200 "Upload complete"
          (items.length - (items.filter (fun i => !insertOk i)).length)
          (items.filter (fun i => !insertOk i)).length
          (items.filter (fun i => !insertOk i)),
        items.filter insertOk, true⟩ := by
  simp [uploadChapters, h, jsIterate]

/-- Witness for claim C5: two records uploaded, one fails — the response
reports 1 inserted, 1 failed with the offending object, and the successful
record is persisted. -/
theorem c5_witness :
    parseFix "[1,2]" = some (Json.arr [Json.num 1, Json.num 2]) ∧
    uploadChapters parseFix insertFix (Except.ok ()) "[1,2]" =
      ⟨UploadOutcome.okResp 200 "Upload complete" 1 1 [Json.num 2], [Json.num 1], true⟩ :=
  ⟨rfl, by
    have h := c5_partial_upload_report parseFix insertFix "[1,2]"
      [Json.num 1, Json.num 2] rfl
    simpa using h⟩

/-- Claim C6: whatever the query — filters and non-default pagination
included — the list handler issues a cache write with the fixed key
`"chapters"`, the fixed expiry 3600 seconds, and the serialization of the
result computed for the current query. -/
theorem c6_cache_write_fixed_key_ttl (stringify : ListResponse → String) (q : Query)
    (db : List Chapter) (w : Except Unit Unit) :
    (getAllChapters stringify q db w).cacheWrite =
      ⟨"chapters", 3600, stringify (listQuery q db)⟩ :=
  rfl

/-- Claim C9: a multipart upload whose content parses as valid JSON that is
not an array — here the JSON object parsed from the empty-object document —
makes the handler throw while iterating with `for...of`: no HTTP response is
sent and the cache deletion is never reached; the 400 branch covers only
`JSON.parse` failures. -/
theorem c9_non_array_json_throws :
    parseFix "\x7b\x7d" = some (Json.obj []) ∧
    uploadChapters parseFix (fun _ => true) (Except.ok ()) "\x7b\x7d" =
      ⟨UploadOutcome.thrown, [], false⟩ :=
  ⟨rfl, rfl⟩

/-- Claim C10: the POST pipeline runs the file handling and the upload
handler exactly when the raw Authorization header equals the configured admin
token (strict equality, absent values compared as such); otherwise it
responds 403 with the Unauthorized error body and neither stage executes. -/
theorem c10_admin_auth_exact_match (tok auth : Option String) :
    postChapters tok auth =
      if auth = tok then ⟨none, none, true, true⟩
      else ⟨some 403, some "Unauthorized", false, false⟩ := by
  by_cases h : auth = tok <;> simp [postChapters, adminAuth, h]

/-- Claim C7: if the shared-store adapter needs a command the Upstash client
cannot serve — Lua scripting via `evalsha` or `eval` — its construction
throws, the startup try/catch falls back to the in-memory limiter, and the
server keeps a working limiter configuration (60-second window, 30 requests)
rather than crashing. -/
theorem c7_lua_incompat_falls_back (client : UpstashClient) (cmds : List RedisCommand)
    (h : RedisCommand.evalsha ∈ cmds ∨ RedisCommand.evalCmd ∈ cmds) :
    setupRateLimiter (some client) cmds = memLimiter := by
  have hall : ¬(cmds.all (cmdOk client) = true) := by
    intro hall
    rcases h with h | h
    · have := List.all_eq_true.mp hall _ h
      simp [cmdOk, sendCommand] at this
    · have := List.all_eq_true.mp hall _ h
      simp [cmdOk, sendCommand] at this
  show (if cmds.all (cmdOk client) then sharedLimiter else memLimiter) = memLimiter
  rw [if_neg hall]

/-- Witness for claim C7: a store needing `evalsha` falls back. -/
theorem c7_witness :
    (RedisCommand.evalsha ∈ [RedisCommand.evalsha] ∨
      RedisCommand.evalCmd ∈ [RedisCommand.evalsha]) ∧
    setupRateLimiter (some clientFix) [RedisCommand.evalsha] = memLimiter :=
  ⟨Or.inl (by decide),
    c7_lua_incompat_falls_back clientFix [RedisCommand.evalsha] (Or.inl (by decide))⟩

/-- Unfolding one request of a run. -/
theorem runHits_cons (lim : Limiter) (key : String) (n : Nat) (ns : List Nat)
    (st : List (String × CounterEntry)) :
    runHits lim key (n :: ns) st =
      ((rateLimitRequest lim n key st).1 ::
          (runHits lim key ns (rateLimitRequest lim n key st).2).1,
        (runHits lim key ns (rateLimitRequest lim n key st).2).2) :=
  rfl

/-- A request inside the current window increments the counter and decides by
the new count. -/
theorem rateLimitRequest_same_window (c₀ t : Nat) (key : String) :
    rateLimitRequest memLimiter t key [(key, ⟨c₀, t⟩)] =
      (hitDecision (c₀ + 1), [(key, ⟨c₀ + 1, t⟩)]) := by
  have h1 : storeLookup [(key, ⟨c₀, t⟩)] key = some ⟨c₀, t⟩ := by
    simp [storeLookup]
  have h2 : t < t + 60000 := by omega
  by_cases hc : c₀ + 1 ≤ 30 <;>
    simp [rateLimitRequest, limiterHit, h1, h2, storeSet, memLimiter, hitDecision, hc]

/-- The first request of a client creates its counter at 1 and is allowed. -/
theorem rateLimitRequest_first (t : Nat) (key : String) :
    rateLimitRequest memLimiter t key [] = (ReqDecision.allowed, [(key, ⟨1, t⟩)]) := by
  simp [rateLimitRequest, limiterHit, storeLookup, storeSet, memLimiter]

/-- Running `k` further same-window requests from a counter at `c₀`: the
decisions follow the successive counts and the counter ends at `c₀ + k`. -/
theorem runHits_count (k : Nat) (t : Nat) (key : String) :
    ∀ c₀ : Nat, runHits memLimiter key (List.replicate k t) [(key, ⟨c₀, t⟩)] =
      ((List.range k).map (fun i => hitDecision (c₀ + i + 1)), [(key, ⟨c₀ + k, t⟩)]) := by
  induction k with
  | zero =>
    intro c₀
    simp [runHits]
  | succ k ih =>
    intro c₀
    rw [List.replicate_succ]
    simp only [runHits, rateLimitRequest_same_window]
    rw [ih (c₀ + 1)]
    rw [List.range_succ_eq_map, List.map_cons, List.map_map]
    have h3 : c₀ + 1 + k = c₀ + (k + 1) := by omega
    have h4 : (fun i => hitDecision (c₀ + i + 1)) ∘ Nat.succ =
        fun i => hitDecision (c₀ + 1 + i + 1) := by
      funext i
      simp only [Function.comp]
      congr 1
      omega
    rw [h3, h4]

/-- Claim C8: from a fresh limiter state, 31 requests by one client inside a
single 60-second window yield exactly 30 allowed decisions followed by one
rejection with status 429 and the standard rate-limit headers; once the
window has elapsed, the next request from the same client is allowed again. -/
theorem c8_rate_limit_boundary (key : String) (t : Nat) :
    (runHits memLimiter key (List.replicate 31 t) []).1 =
      List.replicate 30 ReqDecision.allowed ++
        [ReqDecision.limited 429 (stdHeaders memLimiter)] ∧
    (rateLimitRequest memLimiter (t + 60000) key
        (runHits memLimiter key (List.replicate 31 t) []).2).1 = ReqDecision.allowed := by
  have h31 : runHits memLimiter key (List.replicate 31 t) [] =
      (ReqDecision.allowed :: (List.range 30).map (fun i => hitDecision (1 + i + 1)),
        [(key, ⟨31, t⟩)]) := by
    have hrep : List.replicate 31 t = t :: List.replicate 30 t := rfl
    rw [hrep, runHits_cons, rateLimitRequest_first]
    dsimp only
    rw [runHits_count 30 t key 1]
  constructor
  · rw [h31]
    dsimp only
    decide
  · rw [h31]
    have h1 : storeLookup [(key, ⟨31, t⟩)] key = some ⟨31, t⟩ := by
      simp [storeLookup]
    have h2 : ¬(t + 60000 < t + 60000) := by omega
    simp [rateLimitRequest, limiterHit, h1, h2, storeSet, memLimiter]
